import Mathlib

/-!
Verification of the elix repository (API service and media service) against its
natural-language specification.  The development shallowly embeds the Python
source: pure functions become Lean functions, the pixeltable-backed memory
store becomes explicit state passing over an association list of tables, the
retry loop of `mcp_utils.py` becomes a fuel-indexed recursion over an abstract
sequence of attempt outcomes, and wall-clock time is modelled by rationals.
Each embedded definition carries a doc comment naming the source location it
was translated from.
-/

set_option autoImplicit false

namespace ElixSpec

/-! ## String helpers

Python string primitives (`lower`, `in`, `replace`, `split('/')`) embedded
over character lists so that everything reduces by computation. -/

/-- Embeds Python `str.lower()` character by character (the strings compared in
the source are ASCII error messages and URLs). -/
def lowerStr (s : String) : String := ⟨s.data.map Char.toLower⟩

/-- Contiguous-sublist test on character lists: `pat` occurs somewhere in
`text`.  Embeds Python's `pat in text` for strings. -/
def listContainsSub : List Char → List Char → Bool
  | [], pat => pat.isEmpty
  | c :: rest, pat => pat.isPrefixOf (c :: rest) || listContainsSub rest pat

/-- Python `pat in s` on strings. -/
def strContains (s pat : String) : Bool := listContainsSub s.data pat.data

/-- Fuel-indexed worker for `pyReplace`: left-to-right, non-overlapping
replacement of every occurrence of `pat` by `rep`, exactly Python
`str.replace` for a non-empty pattern.  The fuel is the length of the text, a
bound on the number of steps. -/
def listReplaceAux (pat rep : List Char) : Nat → List Char → List Char
  | _, [] => []
  | 0, text => text
  | fuel + 1, c :: rest =>
    if pat.isPrefixOf (c :: rest) then
      rep ++ listReplaceAux pat rep fuel (List.drop (pat.length - 1) rest)
    else
      c :: listReplaceAux pat rep fuel rest

/-- Python `s.replace(pat, rep)` for a non-empty `pat`. -/
def pyReplace (s pat rep : String) : String :=
  ⟨listReplaceAux pat.data rep.data s.data.length s.data⟩

/-- Splits a character list at `'/'` separators, accumulating the current
component in reverse.  Worker for `splitPath`. -/
def splitOnSlashAux : List Char → List Char → List String
  | [], cur => [⟨cur.reverse⟩]
  | c :: rest, cur =>
    if c = '/' then ⟨cur.reverse⟩ :: splitOnSlashAux rest []
    else splitOnSlashAux rest (c :: cur)

/-- The non-empty `'/'`-separated components of a path string. -/
def splitPath (s : String) : List String :=
  (splitOnSlashAux s.data []).filter (fun c => !(c == ""))

/-- Python `s.startswith(p)` over the character data. -/
def strStartsWith (s p : String) : Bool := p.data.isPrefixOf s.data

/-! ## Configuration loader (src/elix-api/src/elix_api/config.py)

The container marker file (`/.dockerenv`) is abstracted as the boolean
`in_docker`; the `MCP_SERVER` environment variable as an `Option String`. -/

/-- Embeds `_get_default_mcp_server` (config.py lines 8-17): the well-known
in-container URL if the marker file is present, else the loopback URL. -/
def get_default_mcp_server (in_docker : Bool) : String :=
  if in_docker then "http://elix-mcp:9090/mcp/" else "http://localhost:9090/mcp/"

/-- Embeds `Settings.validate_mcp_server` (config.py lines 53-75): a value
containing the container hostname `elix-mcp` is rewritten to `localhost` when
the marker file is absent; every other value is returned unchanged. -/
def validate_mcp_server (in_docker : Bool) (v : String) : String :=
  if strContains v "elix-mcp" then
    if in_docker then v else pyReplace v "elix-mcp" "localhost"
  else v

/-- Resolution of the `MCP_SERVER` setting: an explicit environment value goes
through the field validator, otherwise the default factory output is used
(config.py lines 48-75). -/
def resolve_mcp_server (in_docker : Bool) (env : Option String) : String :=
  match env with
  | none => get_default_mcp_server in_docker
  | some v => validate_mcp_server in_docker v

/-- C6: For the API-service configuration loader, with the container marker
absent and `MCP_SERVER` unset the resolved protocol-server URL is the loopback
URL; an explicit value containing the well-known container hostname
`elix-mcp` is rewritten by replacing that hostname with `localhost` (in
particular the canonical container URL resolves to the loopback URL); and any
other explicit value is returned unchanged. -/
theorem mcp_server_resolution (v : String) :
    resolve_mcp_server false none = "http://localhost:9090/mcp/" ∧
    resolve_mcp_server false (some v) =
      (if strContains v "elix-mcp" then pyReplace v "elix-mcp" "localhost" else v) ∧
    resolve_mcp_server false (some "http://elix-mcp:9090/mcp/") =
      "http://localhost:9090/mcp/" := by
  refine ⟨rfl, ?_, by decide⟩
  by_cases h : strContains v "elix-mcp" = true <;>
    simp [resolve_mcp_server, validate_mcp_server, h]

/-! ## Connection-resilience utility (src/elix-api/src/elix_api/mcp_utils.py)

A Python exception is abstracted to the data the classifier inspects: its
message (`str(e)`), its string arguments (`e.args`, non-string arguments are
skipped by the source), and whether it is an instance of
`ConnectionError`/`OSError`.  Wall-clock time is modelled by rationals: the
operation of attempt `k` consumes `dur k` seconds and every sleep consumes its
sleep time, so `elapsed` tracks `time.time() - start_time`. -/

/-- The data of a raised Python exception inspected by the retry wrapper. -/
structure PyError where
  msg : String
  args : List String
  is_conn_or_os : Bool
deriving DecidableEq

/-- The message-pattern block of the classifier (mcp_utils.py lines 146-156),
applied to the lowercased message. -/
def msg_matches_connection_patterns (m : String) : Bool :=
  strContains m "name or service not known" ||
  strContains m "failed to connect" ||
  strContains m "client failed to connect" ||
  (strContains m "connection" &&
    (strContains m "refused" || strContains m "failed" || strContains m "error")) ||
  strContains m "all connection attempts failed" ||
  strContains m "errno -2" ||
  strContains m "errno 111" ||
  strContains m "errno 61"

/-- The per-argument fallback check (mcp_utils.py lines 159-169). -/
def arg_matches_connection (a : String) : Bool :=
  strContains (lowerStr a) "name or service not known" ||
  strContains (lowerStr a) "failed to connect" ||
  strContains (lowerStr a) "connection"

/-- The full retryable-connection-failure classifier of `retry_mcp_connection`
(mcp_utils.py lines 143-169): message patterns on the lowercased message, or
`isinstance(e, (ConnectionError, OSError))`, or a matching string argument. -/
def is_connection_error (e : PyError) : Bool :=
  (msg_matches_connection_patterns (lowerStr e.msg) || e.is_conn_or_os) ||
    e.args.any arg_matches_connection

/-- The keyword parameters of `retry_mcp_connection` (mcp_utils.py
lines 50-57). -/
structure RetryParams where
  max_retries : Nat
  initial_delay : Rat
  max_delay : Rat
  backoff_factor : Rat
  max_total_timeout : Rat
deriving DecidableEq

/-- The source's default parameters: 5 retries, 2.0s initial delay, 10.0s max
delay, 1.5 backoff factor, 60.0s total budget. -/
def defaultRetryParams : RetryParams := ⟨5, 2, 10, 3 / 2, 60⟩

/-- What the wrapper raises when it does not return a value. -/
inductive RetryRaise
  | exc : PyError → RetryRaise
  | timeoutError : RetryRaise
  | connectionError : RetryRaise
  | runtimeError : RetryRaise
deriving DecidableEq

/-- Observable outcome of one run of the wrapper: the returned value or the
raised error, the number of operation calls made, and the sleeps performed as
(elapsed time when the sleep started, sleep duration) pairs. -/
structure RetryResult (α : Type) where
  result : Except RetryRaise α
  attempts : Nat
  sleeps : List (Rat × Rat)

/-- `raise last_exception` if one was recorded, else the given fallback
(mcp_utils.py lines 121-123 and 128-130). -/
def raiseLastOr (lastExc : Option PyError) (fallback : RetryRaise) : RetryRaise :=
  match lastExc with
  | some e => RetryRaise.exc e
  | none => fallback

/-- Embeds the `for attempt in range(max_retries + 1)` loop of
`retry_mcp_connection` (mcp_utils.py lines 113-243).  `fuel` is the number of
loop iterations remaining, `attempt` the current index, `func k` the outcome
of the k-th call of the wrapped operation, `dur k` the time that call
consumes.  Branches in source order: the budget check at the top of the loop,
the permanent-DNS-failure short-circuit, the call itself, the
non-retryable-error immediate re-raise, the mid-retry budget check, the capped
sleep and backoff, and the final-attempt re-raise; exhausting the loop without
returning reaches the trailing `raise` (lines 240-243). -/
def retryLoop {α : Type} (p : RetryParams) (dns_failed : Bool)
    (func : Nat → Except PyError α) (dur : Nat → Rat) :
    Nat → Nat → Rat → Rat → Option PyError → Nat → List (Rat × Rat) → RetryResult α
  | 0, _, _, _, lastExc, n, sl =>
    ⟨Except.error (raiseLastOr lastExc RetryRaise.runtimeError), n, sl⟩
  | fuel + 1, attempt, elapsed, delay, lastExc, n, sl =>
    if p.max_total_timeout ≤ elapsed then
      ⟨Except.error (raiseLastOr lastExc RetryRaise.timeoutError), n, sl⟩
    else if dns_failed ∧ 0 < attempt then
      ⟨Except.error (raiseLastOr lastExc RetryRaise.connectionError), n, sl⟩
    else
      match func attempt with
      | Except.ok v => ⟨Except.ok v, n + 1, sl⟩
      | Except.error e =>
        if is_connection_error e = false then
          ⟨Except.error (RetryRaise.exc e), n + 1, sl⟩
        else if attempt < p.max_retries then
          if p.max_total_timeout - (elapsed + dur attempt) ≤ 0 then
            ⟨Except.error RetryRaise.timeoutError, n + 1, sl⟩
          else
            retryLoop p dns_failed func dur fuel (attempt + 1)
              (elapsed + dur attempt +
                min delay (p.max_total_timeout - (elapsed + dur attempt)))
              (min (delay * p.backoff_factor) p.max_delay) (some e) (n + 1)
              (sl ++ [(elapsed + dur attempt,
                min delay (p.max_total_timeout - (elapsed + dur attempt)))])
        else ⟨Except.error (RetryRaise.exc e), n + 1, sl⟩

/-- Embeds `retry_mcp_connection` itself (mcp_utils.py lines 50-243): the loop
entered with `max_retries + 1` iterations available, attempt 0, the initial
delay, no recorded exception and no sleeps.  `elapsed0` is the time already
consumed before the first iteration (the connectivity probe runs after
`start_time` is taken, lines 80-111), and `dns_failed` the flag the probe may
set. -/
def retry_mcp_connection {α : Type} (p : RetryParams) (dns_failed : Bool)
    (func : Nat → Except PyError α) (dur : Nat → Rat) (elapsed0 : Rat) : RetryResult α :=
  retryLoop p dns_failed func dur (p.max_retries + 1) 0 elapsed0 p.initial_delay none 0 []

/-- C4: an operation whose first failure is not classified as a retryable
connection failure is re-raised on the very first attempt: exactly one call is
made and no sleep is performed. -/
theorem non_connection_error_raises_first_attempt {α : Type}
    (p : RetryParams) (dns_failed : Bool) (func : Nat → Except PyError α)
    (dur : Nat → Rat) (elapsed0 : Rat) (e : PyError)
    (hbudget : elapsed0 < p.max_total_timeout)
    (hfail : func 0 = Except.error e)
    (hclass : is_connection_error e = false) :
    retry_mcp_connection p dns_failed func dur elapsed0 =
      ⟨Except.error (RetryRaise.exc e), 1, []⟩ := by
  unfold retry_mcp_connection
  rw [retryLoop]
  simp [hfail, hclass, not_le.mpr hbudget]

/-- A concrete non-retryable failure: no pattern matches, no connection/OS
error kind. -/
def demoNonConnError : PyError := ⟨"boom: schema validation", [], false⟩

/-- Witness for C4 at the source's default parameters. -/
theorem non_connection_error_raises_first_attempt_witness :
    retry_mcp_connection defaultRetryParams false
        (fun _ => (Except.error demoNonConnError : Except PyError Unit)) (fun _ => 0) 0 =
      ⟨Except.error (RetryRaise.exc demoNonConnError), 1, []⟩ :=
  non_connection_error_raises_first_attempt defaultRetryParams false _ _ 0 demoNonConnError
    (by norm_num [defaultRetryParams]) rfl (by decide)

/-- Invariant behind C5: every sleep starts before the budget is exhausted and
lasts at most the remaining budget, so elapsed time immediately after any
sleep is still at most the budget. -/
theorem retryLoop_sleeps_bounded {α : Type} (p : RetryParams) (dns_failed : Bool)
    (func : Nat → Except PyError α) (dur : Nat → Rat) :
    ∀ (fuel attempt : Nat) (elapsed delay : Rat) (lastExc : Option PyError)
      (n : Nat) (sl : List (Rat × Rat)),
      (∀ pre s, (pre, s) ∈ sl → pre + s ≤ p.max_total_timeout) →
      ∀ pre s,
        (pre, s) ∈ (retryLoop p dns_failed func dur fuel attempt elapsed delay lastExc n sl).sleeps →
        pre + s ≤ p.max_total_timeout := by
  intro fuel
  induction fuel with
  | zero =>
    intro attempt elapsed delay lastExc n sl hsl pre s hmem
    exact hsl pre s hmem
  | succ f ih =>
    intro attempt elapsed delay lastExc n sl hsl pre s hmem
    rw [retryLoop] at hmem
    split at hmem
    · exact hsl pre s hmem
    · split at hmem
      · exact hsl pre s hmem
      · split at hmem
        · exact hsl pre s hmem
        · split at hmem
          · exact hsl pre s hmem
          · split at hmem
            · split at hmem
              · exact hsl pre s hmem
              · refine ih (attempt + 1) _ _ _ (n + 1) _ ?_ pre s hmem
                intro pre2 s2 hmem2
                rcases List.mem_append.mp hmem2 with hold | hnew
                · exact hsl pre2 s2 hold
                · have hps : pre2 = elapsed + dur attempt ∧
                      s2 = min delay (p.max_total_timeout - (elapsed + dur attempt)) := by
                    simpa [Prod.ext_iff] using hnew
                  rcases hps with ⟨hp2, hs2⟩
                  subst hp2
                  subst hs2
                  have hmin : min delay (p.max_total_timeout - (elapsed + dur attempt)) ≤
                      p.max_total_timeout - (elapsed + dur attempt) := min_le_right _ _
                  linarith
            · exact hsl pre s hmem

/-- C5: the wrapper respects the overall wall-clock budget.  First conjunct:
at the top of any loop iteration with the budget already exhausted, the
wrapper raises the last observed error (or a timeout error if none was
observed) without calling the operation or sleeping again.  Second conjunct:
every sleep performed by a run lasts at most the time remaining in the budget
when it starts, so the wrapper never sleeps past the budget. -/
theorem retry_respects_total_budget {α : Type} (p : RetryParams) (dns_failed : Bool)
    (func : Nat → Except PyError α) (dur : Nat → Rat) :
    (∀ (fuel attempt : Nat) (elapsed delay : Rat) (lastExc : Option PyError)
        (n : Nat) (sl : List (Rat × Rat)),
      p.max_total_timeout ≤ elapsed →
      retryLoop p dns_failed func dur (fuel + 1) attempt elapsed delay lastExc n sl =
        ⟨Except.error (raiseLastOr lastExc RetryRaise.timeoutError), n, sl⟩) ∧
    (∀ (elapsed0 : Rat) (pre s : Rat),
      (pre, s) ∈ (retry_mcp_connection p dns_failed func dur elapsed0).sleeps →
      s ≤ p.max_total_timeout - pre ∧ pre + s ≤ p.max_total_timeout) := by
  constructor
  · intro fuel attempt elapsed delay lastExc n sl hbudget
    rw [retryLoop, if_pos hbudget]
  · intro elapsed0 pre s hmem
    have hbound : pre + s ≤ p.max_total_timeout := by
      refine retryLoop_sleeps_bounded p dns_failed func dur (p.max_retries + 1) 0 elapsed0
        p.initial_delay none 0 [] ?_ pre s hmem
      intro pre2 s2 hmem2
      simp at hmem2
    exact ⟨by linarith, hbound⟩

/-- A concrete retryable connection failure. -/
def demoConnError : PyError := ⟨"all connection attempts failed", [], false⟩

/-- A run with one retry allowed and a persistently failing connection: the
wrapped operation fails on both attempts, so exactly one sleep of 2 seconds
happens at elapsed time 0. -/
def demoRetryRun : RetryResult Unit :=
  retry_mcp_connection ⟨1, 2, 10, 3 / 2, 60⟩ false
    (fun _ => Except.error demoConnError) (fun _ => 0) 0

/-- Witness for C5: the budget check fires at a concrete exhausted clock, and
the one sleep of the concrete run satisfies both bounds. -/
theorem retry_respects_total_budget_witness :
    retryLoop defaultRetryParams false
        (fun _ => (Except.error demoNonConnError : Except PyError Unit)) (fun _ => 0)
        1 0 70 2 none 0 [] =
      ⟨Except.error RetryRaise.timeoutError, 0, []⟩ ∧
    ((2 : Rat) ≤ 60 - 0 ∧ (0 : Rat) + 2 ≤ 60) := by
  constructor
  · have h := (retry_respects_total_budget defaultRetryParams false
      (fun _ => (Except.error demoNonConnError : Except PyError Unit)) (fun _ => 0)).1
      0 0 70 2 none 0 [] (by norm_num [defaultRetryParams])
    simpa [raiseLastOr] using h
  · have hconn : is_connection_error demoConnError = true := by decide
    have hsl : demoRetryRun.sleeps = [(0, 2)] := by
      norm_num [demoRetryRun, retry_mcp_connection, retryLoop, hconn, min_def]
    have hmem : ((0 : Rat), (2 : Rat)) ∈
        (retry_mcp_connection ⟨1, 2, 10, 3 / 2, 60⟩ false
          (fun _ => (Except.error demoConnError : Except PyError Unit))
          (fun _ => 0) 0).sleeps := by
      have hthis : (retry_mcp_connection ⟨1, 2, 10, 3 / 2, 60⟩ false
          (fun _ => (Except.error demoConnError : Except PyError Unit))
          (fun _ => 0) 0).sleeps = [(0, 2)] := hsl
      rw [hthis]
      exact List.mem_singleton.mpr rfl
    have h := (retry_respects_total_budget ⟨1, 2, 10, 3 / 2, 60⟩ false
      (fun _ => (Except.error demoConnError : Except PyError Unit)) (fun _ => 0)).2
      0 0 2 hmem
    simpa using h

/-! ## Conversational memory store (src/elix-api/src/elix_api/agent/memory.py)

The embedded analytical table store (pixeltable) is modelled by its catalog
state: an association list from table paths to row lists.  A table path is the
pair (directory, table name), mirroring the source's `f"{directory}.memory"`
naming.  Dropping a directory removes every table under it; a handle to a
dropped table fails on use (the store has no lazy recreation).  Timestamps are
modelled as natural numbers. -/

/-- A conversational turn (memory.py lines 8-12). -/
structure MemoryRecord where
  message_id : String
  role : String
  content : String
  timestamp : Nat
deriving DecidableEq

/-- A pixeltable table path: (directory, table name). -/
abbrev TablePath := String × String

/-- The catalog state of the embedded table store. -/
structure PxtEnv where
  tables : List (TablePath × List MemoryRecord)
deriving DecidableEq

/-- Failures raised by operations in the store model: using a handle to a
dropped table, and Python's `IndexError` from `[0]` on an empty result. -/
inductive PxtError
  | tableNotFound
  | indexError
deriving DecidableEq

/-- First-match lookup of a table path in the catalog. -/
def tlookup : List (TablePath × List MemoryRecord) → TablePath → Option (List MemoryRecord)
  | [], _ => none
  | t :: ts, p => if t.1 = p then some t.2 else tlookup ts p

/-- Appends a row to the table at path `p` (every other table unchanged). -/
def tappend (ts : List (TablePath × List MemoryRecord)) (p : TablePath)
    (r : MemoryRecord) : List (TablePath × List MemoryRecord) :=
  ts.map (fun t => if t.1 = p then (t.1, t.2 ++ [r]) else t)

/-- The first sanitization step of `Memory.__init__` (memory.py line 17):
Python `name.replace("-", "_")`, a per-character map for a one-character
pattern. -/
def sanitizeChar1 (c : Char) : Char := if c = '-' then '_' else c

/-- The second sanitization step: Python `.replace(".", "_")`. -/
def sanitizeChar2 (c : Char) : Char := if c = '.' then '_' else c

/-- Embeds memory.py line 17: `name.replace("-", "_").replace(".", "_")`. -/
def sanitize (name : String) : String :=
  ⟨(name.data.map sanitizeChar1).map sanitizeChar2⟩

/-- Both replacement steps combined into one character map. -/
def sanChar (c : Char) : Char := if c = '-' then '_' else if c = '.' then '_' else c

/-- `pxt.create_dir(d, if_exists="replace_force")` (memory.py line 19): the
directory is force-replaced, destroying every table stored under it. -/
def create_dir_replace_force (env : PxtEnv) (d : String) : PxtEnv :=
  ⟨env.tables.filter (fun t => !(t.1.1 == d))⟩

/-- `pxt.create_table(..., if_exists="ignore")` (memory.py lines 24-33): a
fresh empty table unless one already exists at the path. -/
def create_table_if_ignore (env : PxtEnv) (p : TablePath) : PxtEnv :=
  match tlookup env.tables p with
  | some _ => env
  | none => ⟨(p, []) :: env.tables⟩

/-- `pxt.drop_dir(d, if_not_exists="ignore", force=True)` (memory.py
line 36): removes the directory and every table under it; dropping a
non-existent directory is not an error. -/
def drop_dir_force (env : PxtEnv) (d : String) : PxtEnv :=
  ⟨env.tables.filter (fun t => !(t.1.1 == d))⟩

/-- The state a `Memory` instance holds: its sanitized directory name
(memory.py line 17). -/
structure Memory where
  directory : String
deriving DecidableEq

/-- The table path `f"{directory}.memory"` used by every operation. -/
def Memory.table_path (m : Memory) : TablePath := (m.directory, "memory")

/-- Embeds `Memory.__init__` (memory.py lines 15-22): sanitize the name,
force-replace the directory, create the `memory` table, return the handle. -/
def Memory.init (env : PxtEnv) (name : String) : PxtEnv × Memory :=
  (create_table_if_ignore (create_dir_replace_force env (sanitize name))
    (sanitize name, "memory"), ⟨sanitize name⟩)

/-- Embeds `Memory.reset_memory` (memory.py lines 34-36). -/
def Memory.reset_memory (env : PxtEnv) (m : Memory) : PxtEnv :=
  drop_dir_force env m.directory

/-- Embeds `Memory.insert` (memory.py lines 38-39): appends one record via
the table handle; the handle fails if the table was dropped (nothing in the
source recreates it). -/
def Memory.insert (env : PxtEnv) (m : Memory) (r : MemoryRecord) :
    Except PxtError PxtEnv :=
  match tlookup env.tables m.table_path with
  | none => Except.error PxtError.tableNotFound
  | some _ => Except.ok ⟨tappend env.tables m.table_path r⟩

/-- Embeds `Memory.get_all` (memory.py lines 41-42): collects every row in
insertion order via the table handle. -/
def Memory.get_all (env : PxtEnv) (m : Memory) : Except PxtError (List MemoryRecord) :=
  match tlookup env.tables m.table_path with
  | none => Except.error PxtError.tableNotFound
  | some rows => Except.ok rows

/-- Python list slice `rows[-n:]` for a natural `n`: `-0` is `0`, so `n = 0`
selects the whole list; otherwise the last `n` elements (all of them when
`n` exceeds the length). -/
def pySliceLast (rows : List MemoryRecord) (n : Nat) : List MemoryRecord :=
  if n = 0 then rows else rows.drop (rows.length - n)

/-- Embeds `Memory.get_latest` (memory.py lines 44-45):
`self.get_all()[-n:]`. -/
def Memory.get_latest (env : PxtEnv) (m : Memory) (n : Nat) :
    Except PxtError (List MemoryRecord) :=
  (Memory.get_all env m).map (fun rows => pySliceLast rows n)

/-- Embeds `Memory.get_by_message_id` (memory.py lines 47-48): filter the
rows by message id and take element `[0]` unconditionally; Python raises
`IndexError` when the filtered result is empty. -/
def Memory.get_by_message_id (env : PxtEnv) (m : Memory) (mid : String) :
    Except PxtError MemoryRecord :=
  match Memory.get_all env m with
  | Except.error err => Except.error err
  | Except.ok rows =>
    match rows.filter (fun r => r.message_id == mid) with
    | [] => Except.error PxtError.indexError
    | r :: _ => Except.ok r

/-- Sequential insertion of a list of records through `Memory.insert`. -/
def insertAll (env : PxtEnv) (m : Memory) (recs : List MemoryRecord) :
    Except PxtError PxtEnv :=
  recs.foldlM (fun e r => Memory.insert e m r) env

/-- Looking up any table of a just-dropped directory fails. -/
theorem tlookup_filter_dir (ts : List (TablePath × List MemoryRecord)) (d tname : String) :
    tlookup (ts.filter (fun t => !(t.1.1 == d))) (d, tname) = none := by
  induction ts with
  | nil => rfl
  | cons t ts ih =>
    by_cases hd : t.1.1 = d
    · have hb : (t.1.1 == d) = true := beq_iff_eq.mpr hd
      simp [List.filter, hb, ih]
    · have hb : (t.1.1 == d) = false := beq_eq_false_iff_ne.mpr hd
      by_cases hp : t.1 = (d, tname)
      · exact absurd (congrArg Prod.fst hp) hd
      · simp [List.filter, hb, tlookup, hp, ih]

/-- Appending a row changes exactly the looked-up table's rows. -/
theorem tlookup_tappend_self (ts : List (TablePath × List MemoryRecord))
    (p : TablePath) (r : MemoryRecord) :
    tlookup (tappend ts p r) p = (tlookup ts p).map (fun rows => rows ++ [r]) := by
  induction ts with
  | nil => rfl
  | cons t ts ih =>
    by_cases hp : t.1 = p
    · simp [tappend, tlookup, hp]
    · simp [tappend, tlookup, hp] at ih ⊢
      exact ih

/-- After `Memory.init`, the instance's backing table exists and is empty,
regardless of what the catalog previously held under that name. -/
theorem init_table_empty (env : PxtEnv) (name : String) :
    tlookup ((Memory.init env name).1).tables ((Memory.init env name).2).table_path =
      some [] := by
  have hdrop := tlookup_filter_dir env.tables (sanitize name) "memory"
  simp [Memory.init, Memory.table_path, create_table_if_ignore,
    create_dir_replace_force, hdrop, tlookup]

/-- Inserting a list of records succeeds on an existing table and appends the
records in order. -/
theorem insertAll_ok (m : Memory) :
    ∀ (recs : List MemoryRecord) (env : PxtEnv) (rows : List MemoryRecord),
      tlookup env.tables m.table_path = some rows →
      ∃ env2, insertAll env m recs = Except.ok env2 ∧
        tlookup env2.tables m.table_path = some (rows ++ recs) := by
  intro recs
  induction recs with
  | nil =>
    intro env rows hlook
    exact ⟨env, rfl, by simpa using hlook⟩
  | cons r rs ih =>
    intro env rows hlook
    have hins : Memory.insert env m r = Except.ok ⟨tappend env.tables m.table_path r⟩ := by
      simp [Memory.insert, hlook]
    have hlook2 : tlookup (tappend env.tables m.table_path r) m.table_path =
        some (rows ++ [r]) := by
      rw [tlookup_tappend_self, hlook]
      rfl
    obtain ⟨env2, hfold, hfinal⟩ := ih ⟨tappend env.tables m.table_path r⟩ (rows ++ [r]) hlook2
    refine ⟨env2, ?_, by simpa using hfinal⟩
    simp [insertAll, List.foldlM, hins]
    simpa [insertAll] using hfold

deriving instance DecidableEq for Except

/-- A concrete conversational turn. -/
def demoRec : MemoryRecord := ⟨"m1", "user", "hello", 0⟩

/-- A second concrete conversational turn. -/
def demoRec2 : MemoryRecord := ⟨"m2", "assistant", "hi there", 1⟩

/-- A fresh `Memory` built from an empty catalog with the agent name the API
service uses. -/
def demoInit : PxtEnv × Memory := Memory.init ⟨[]⟩ "elix-api"

/-- A catalog already holding one record under the sanitized agent name. -/
def demoEnvWithRec : PxtEnv := ⟨[((sanitize "elix-api", "memory"), [demoRec])]⟩

/-- C2 counterexample: build a memory, insert a record (which succeeds), call
`reset_memory`; then `get_all` fails with a missing-table error instead of
returning an empty sequence, and a subsequent `insert` fails instead of
lazily recreating the table. -/
theorem reset_then_use_counterexample :
    ((insertAll demoInit.1 demoInit.2 [demoRec]).toOption).isSome = true ∧
    (insertAll demoInit.1 demoInit.2 [demoRec]).bind
        (fun e2 => Memory.get_all (Memory.reset_memory e2 demoInit.2) demoInit.2) =
      Except.error PxtError.tableNotFound ∧
    (insertAll demoInit.1 demoInit.2 [demoRec]).bind
        (fun e2 => Memory.insert (Memory.reset_memory e2 demoInit.2) demoInit.2 demoRec2) =
      Except.error PxtError.tableNotFound := by decide

/-- C2 amended: `reset_memory` drops the backing directory and nothing
recreates the table: on the same instance `get_all` and `insert` both fail
with a missing-table error (rather than returning empty / lazily recreating),
and reset itself is idempotent, so dropping an already-dropped store is not an
error. -/
theorem reset_drops_table_without_recreation (env : PxtEnv) (m : Memory) (r : MemoryRecord) :
    Memory.get_all (Memory.reset_memory env m) m = Except.error PxtError.tableNotFound ∧
    Memory.insert (Memory.reset_memory env m) m r = Except.error PxtError.tableNotFound ∧
    Memory.reset_memory (Memory.reset_memory env m) m = Memory.reset_memory env m := by
  have hlook : tlookup (Memory.reset_memory env m).tables m.table_path = none := by
    simpa [Memory.reset_memory, drop_dir_force, Memory.table_path] using
      tlookup_filter_dir env.tables m.directory "memory"
  refine ⟨?_, ?_, ?_⟩
  · simp [Memory.get_all, hlook]
  · simp [Memory.insert, hlook]
  · simp [Memory.reset_memory, drop_dir_force, List.filter_filter]

/-- C7 counterexample: with one inserted record, `get_latest(0)` returns that
record (Python `[-0:]` is `[0:]`, the whole list), not the zero records the
claim predicts. -/
theorem get_latest_zero_counterexample :
    (insertAll demoInit.1 demoInit.2 [demoRec]).bind
        (fun e2 => Memory.get_latest e2 demoInit.2 0) = Except.ok [demoRec] ∧
    (Except.ok [demoRec] : Except PxtError (List MemoryRecord)) ≠
      Except.ok ([] : List MemoryRecord) := by decide

/-- C7 amended: for records inserted in sequence into a fresh memory,
`get_all` returns them all in insertion order, and for `k ≥ 1` `get_latest(k)`
returns exactly the trailing `min k N` of them in insertion order; for
`k = 0`, however, it returns all `N` records rather than zero records. -/
theorem get_latest_last_min_k (env : PxtEnv) (name : String)
    (recs : List MemoryRecord) (k : Nat) :
    (insertAll (Memory.init env name).1 (Memory.init env name).2 recs).bind
        (fun env2 => Memory.get_all env2 (Memory.init env name).2) = Except.ok recs ∧
    (1 ≤ k →
      (insertAll (Memory.init env name).1 (Memory.init env name).2 recs).bind
          (fun env2 => Memory.get_latest env2 (Memory.init env name).2 k) =
        Except.ok (recs.drop (recs.length - k)) ∧
      (recs.drop (recs.length - k)).length = min k recs.length ∧
      recs.take (recs.length - k) ++ recs.drop (recs.length - k) = recs) ∧
    (insertAll (Memory.init env name).1 (Memory.init env name).2 recs).bind
        (fun env2 => Memory.get_latest env2 (Memory.init env name).2 0) =
      Except.ok recs := by
  obtain ⟨env2, hfold, hlook⟩ := insertAll_ok (Memory.init env name).2 recs
    (Memory.init env name).1 [] (init_table_empty env name)
  simp only [List.nil_append] at hlook
  have hall : Memory.get_all env2 (Memory.init env name).2 = Except.ok recs := by
    simp [Memory.get_all, hlook]
  refine ⟨?_, ?_, ?_⟩
  · simp [hfold, hall, Except.bind]
  · intro hk
    have hk0 : k ≠ 0 := by omega
    refine ⟨?_, ?_, List.take_append_drop _ _⟩
    · simp [hfold, Memory.get_latest, hall, pySliceLast, hk0, Except.bind, Except.map]
    · rw [List.length_drop]
      omega
  · simp [hfold, Memory.get_latest, hall, pySliceLast, Except.bind, Except.map]

/-- Witness for the amended C7 at two records and `k = 1`. -/
theorem get_latest_last_min_k_witness :
    (insertAll (Memory.init ⟨[]⟩ "elix-api").1 (Memory.init ⟨[]⟩ "elix-api").2
        [demoRec, demoRec2]).bind
      (fun env2 => Memory.get_latest env2 (Memory.init ⟨[]⟩ "elix-api").2 1) =
      Except.ok ([demoRec, demoRec2].drop ([demoRec, demoRec2].length - 1)) ∧
    ([demoRec, demoRec2].drop ([demoRec, demoRec2].length - 1)).length =
      min 1 [demoRec, demoRec2].length ∧
    [demoRec, demoRec2].take ([demoRec, demoRec2].length - 1) ++
        [demoRec, demoRec2].drop ([demoRec, demoRec2].length - 1) =
      [demoRec, demoRec2] :=
  (get_latest_last_min_k ⟨[]⟩ "elix-api" [demoRec, demoRec2] 1).2.1 (by decide)

/-- C9: for a message id matching no stored record, `get_by_message_id` does
not return an absent/None-style value: the unconditional `[0]` on the
filtered result fails with an out-of-bounds indexing error. -/
theorem get_by_missing_id_raises_index_error (env : PxtEnv) (m : Memory)
    (rows : List MemoryRecord) (mid : String)
    (hlook : tlookup env.tables m.table_path = some rows)
    (habs : mid ∉ rows.map (fun r => r.message_id)) :
    Memory.get_by_message_id env m mid = Except.error PxtError.indexError := by
  have hfilter : rows.filter (fun r => r.message_id == mid) = [] := by
    refine List.filter_eq_nil_iff.mpr ?_
    intro r hr hbe
    exact habs (List.mem_map.mpr ⟨r, hr, beq_iff_eq.mp hbe⟩)
  simp [Memory.get_by_message_id, Memory.get_all, hlook, hfilter]

/-- Witness for C9: looking up an id absent from a one-record store fails
with the indexing error. -/
theorem get_by_missing_id_raises_index_error_witness :
    Memory.get_by_message_id demoEnvWithRec demoInit.2 "missing" =
      Except.error PxtError.indexError :=
  get_by_missing_id_raises_index_error demoEnvWithRec demoInit.2 [demoRec] "missing"
    (by decide) (by decide)

/-- The two single-character replacements of `sanitize` compose to the single
character map `sanChar`. -/
theorem sanitizeChar_comp : sanitizeChar2 ∘ sanitizeChar1 = sanChar := by
  funext c
  by_cases h1 : c = '-'
  · subst h1; rfl
  · by_cases h2 : c = '.'
    · subst h2; rfl
    · simp [Function.comp, sanitizeChar1, sanitizeChar2, sanChar, h1, h2]

/-- `sanitize` is the character-wise map of `sanChar`. -/
theorem sanitize_eq_map (s : String) : sanitize s = ⟨s.data.map sanChar⟩ := by
  simp [sanitize, List.map_map, sanitizeChar_comp]

/-- C10: constructing a `Memory` force-replaces the backing directory of the
sanitized name: afterwards its table is empty whatever the catalog previously
held, every table under the sanitized directory is removed by the
force-replace, and two names that agree after mapping hyphens and periods to
underscores sanitize to the same directory, so their stores clobber each
other. -/
theorem memory_init_clobbers (env : PxtEnv) (name n1 n2 : String)
    (hsame : n1.data.map sanChar = n2.data.map sanChar) :
    tlookup ((Memory.init env name).1).tables (sanitize name, "memory") = some [] ∧
    (∀ tname : String,
      tlookup (create_dir_replace_force env (sanitize name)).tables
        (sanitize name, tname) = none) ∧
    sanitize n1 = sanitize n2 := by
  refine ⟨?_, ?_, ?_⟩
  · simpa [Memory.table_path] using init_table_empty env name
  · intro tname
    simpa [create_dir_replace_force] using
      tlookup_filter_dir env.tables (sanitize name) tname
  · rw [sanitize_eq_map, sanitize_eq_map, hsame]

/-- Witness for C10: constructing over a catalog holding a prior record
destroys it, and the names "elix-api" and "elix.api" collide. -/
theorem memory_init_clobbers_witness :
    tlookup ((Memory.init demoEnvWithRec "elix-api").1).tables
        (sanitize "elix-api", "memory") = some [] ∧
    sanitize "elix-api" = sanitize "elix.api" := by
  have h := memory_init_clobbers demoEnvWithRec "elix-api" "elix-api" "elix.api" (by decide)
  exact ⟨h.1, h.2.2⟩

/-! ## HTTP API service (src/elix-api/src/elix_api/api.py)

The in-memory background-task map is observed through the entry stored for
one task id (`Option TaskStatus`) and the error string stored under
`f"{task_id}_error"`.  The background job is embedded by the sequence of
status writes it performs, abstracted over whether the video file exists and
over the outcome of the MCP `process_video` call. -/

/-- The task lifecycle states (api.py lines 23-28). -/
inductive TaskStatus
  | pending
  | in_progress
  | completed
  | failed
  | not_found
deriving DecidableEq

/-- The task-status response payload. -/
structure TaskStatusResponse where
  task_id : String
  status : TaskStatus
  error : Option String
deriving DecidableEq

/-- Embeds `get_task_status` (api.py lines 79-86): the stored status with
`not_found` as the lookup default, plus the stored error string when that
string is truthy. -/
def get_task_status (task_id : String) (stored : Option TaskStatus)
    (stored_error : Option String) : TaskStatusResponse :=
  ⟨task_id, stored.getD TaskStatus.not_found,
    match stored_error with
    | some s => if s = "" then none else some s
    | none => none⟩

/-- Embeds the status writes of `background_process_video` (api.py
lines 97-196) in execution order: `IN_PROGRESS` is stored first (line 101);
a missing video file stores `FAILED` and returns (lines 104-109); an MCP
failure stores `FAILED` either in the connection-error branch (lines 155-157)
or in the outer handler after the re-raise (lines 162-196); success stores
`COMPLETED` (line 160).  The enqueueing handler `process_video` itself
(lines 89-199) stores nothing: it only schedules the job and returns the
generated task id. -/
def background_process_video_writes (file_exists : Bool)
    (mcp_result : Except PyError Unit) : List TaskStatus :=
  TaskStatus.in_progress ::
    (if file_exists = false then [TaskStatus.failed]
     else
       match mcp_result with
       | Except.ok _ => [TaskStatus.completed]
       | Except.error _ => [TaskStatus.failed])

/-- The map entry for the task id after the first `k` writes of the
background job have executed (`k = 0` is the moment between enqueue and the
start of execution, when nothing is stored). -/
def taskStateAfter (file_exists : Bool) (mcp_result : Except PyError Unit)
    (k : Nat) : Option TaskStatus :=
  ((background_process_video_writes file_exists mcp_result).take k).getLast?

/-- C3 counterexample: immediately after enqueue (zero background writes
executed) the stored entry is absent, so a status query reports `not_found`
-- not the `pending` (or `in_progress`) the claim requires; `pending` is in
fact never stored by any write of the job. -/
theorem task_status_pending_counterexample :
    get_task_status "tid" (taskStateAfter true (Except.ok ()) 0) none =
      ⟨"tid", TaskStatus.not_found, none⟩ ∧
    TaskStatus.not_found ≠ TaskStatus.pending ∧
    TaskStatus.not_found ≠ TaskStatus.in_progress ∧
    TaskStatus.pending ∉ background_process_video_writes true (Except.ok ()) := by decide

/-- C3 amended: the enqueueing handler stores nothing, so between enqueue and
the start of execution a status query for the task id reports `not_found`
(never `pending`, which is never stored); once execution begins the job
writes `in_progress` followed by exactly one terminal `completed` or
`failed`, and `not_found` is never stored either. -/
theorem task_status_transitions (file_exists : Bool)
    (mcp_result : Except PyError Unit) (tid : String) :
    (background_process_video_writes file_exists mcp_result =
        [TaskStatus.in_progress, TaskStatus.completed] ∨
      background_process_video_writes file_exists mcp_result =
        [TaskStatus.in_progress, TaskStatus.failed]) ∧
    TaskStatus.pending ∉ background_process_video_writes file_exists mcp_result ∧
    TaskStatus.not_found ∉ background_process_video_writes file_exists mcp_result ∧
    (get_task_status tid (taskStateAfter file_exists mcp_result 0) none).status =
      TaskStatus.not_found ∧
    (get_task_status tid (taskStateAfter file_exists mcp_result 1) none).status =
      TaskStatus.in_progress := by
  cases file_exists <;> rcases mcp_result with e | v <;>
    simp [background_process_video_writes, taskStateAfter, get_task_status]

/-! ### Upload endpoint path handling (C1)

`upload_video` (api.py lines 234-254) computes the destination as
`Path("shared_media") / file.filename` and opens it for writing; nothing
strips directory components from the client-supplied filename.  The
destination is modelled as its `/`-separated components, and the operating
system's resolution of `.` and `..` during `open` as `normalizePath`. -/

/-- Python `Path(base) / child` as components: an absolute child replaces the
base entirely, otherwise the components concatenate. -/
def pathJoin (base child : String) : List String :=
  if strStartsWith child "/" then splitPath child else splitPath base ++ splitPath child

/-- One step of lexical path resolution: `.` is dropped, `..` pops the last
component when one is available (accumulating when the path has already
climbed above its start), anything else is kept. -/
def normalizeStep (acc : List String) (c : String) : List String :=
  if c = "." then acc
  else if c = ".." then
    match acc.getLast? with
    | some l => if l = ".." then acc ++ [".."] else acc.dropLast
    | none => acc ++ [".."]
  else acc ++ [c]

/-- Resolution of `.` and `..` in a relative component list, as the operating
system performs it when the file is opened. -/
def normalizePath (comps : List String) : List String :=
  comps.foldl normalizeStep []

/-- Embeds the destination computation of `upload_video` (api.py line 246):
`Path("shared_media") / file.filename`, with no sanitization of the
client-supplied filename. -/
def upload_video_dest (filename : String) : List String :=
  pathJoin "shared_media" filename

/-- Python `Path(filename).name`: the final path component. -/
def basename (filename : String) : String :=
  ((splitPath filename).getLast?).getD ""

/-- The destination the spec describes for `upload_video`: the shared media
directory joined with only the base filename (spec §4.7/§8.8).  Spec-side
definition, for comparison with `upload_video_dest`. -/
def upload_video_dest_spec (filename : String) : List String :=
  ["shared_media", basename filename]

/-- C1: evaluating the actual upload destination at the filename
`../../etc/passwd` shows the write escapes the shared media directory: the
stored components resolve to `../etc/passwd` (outside `shared_media`),
whereas the claimed behavior would store `shared_media/passwd`. -/
theorem upload_path_traversal_escapes :
    upload_video_dest "../../etc/passwd" =
      ["shared_media", "..", "..", "etc", "passwd"] ∧
    normalizePath (upload_video_dest "../../etc/passwd") = ["..", "etc", "passwd"] ∧
    List.isPrefixOf ["shared_media"]
      (normalizePath (upload_video_dest "../../etc/passwd")) = false ∧
    upload_video_dest_spec "../../etc/passwd" = ["shared_media", "passwd"] ∧
    upload_video_dest "../../etc/passwd" ≠ upload_video_dest_spec "../../etc/passwd" := by
  decide

/-! ## MCP video tools (src/elix-mcp/src/elix_mcp/video/tools.py)

`get_video_clip_from_user_query` is embedded as a function of the outcomes of
the two searches it runs: the ranked speech results and the ranked caption
results (each best-first, as returned by the search engine).  The search
engine itself and `extract_video_clip` live in modules not present under
src/, so the clip extraction is modelled from the spec. -/

/-- One ranked search result: similarity score and segment time range. -/
structure ClipInfo where
  similarity : Rat
  start_time : Rat
  end_time : Rat
deriving DecidableEq

/-- A materialized clip: output file plus the source time range used. -/
structure VideoClip where
  filename : String
  start_time : Rat
  end_time : Rat
deriving DecidableEq

/-- The `ValueError` outcomes of the clip tool (tools.py lines 61-87), plus
Python's `IndexError` from `[0]` on an empty list. -/
inductive ToolError
  | indexNotFound
  | noMatches
  | indexError
deriving DecidableEq

/-- Modelled from the spec: `extract_video_clip`
(elix_mcp.video.ingestion.tools) is not under src/; per spec §3
(VideoClipResult) and §4.9 it extracts a clip file for the given segment time
range at the given output path and returns it with that path as its
filename. -/
def extract_video_clip (start_time end_time : Rat) (output_path : String) : VideoClip :=
  ⟨output_path, start_time, end_time⟩

/-- Embeds `get_video_clip_from_user_query` (tools.py lines 48-87),
abstracted over the search outcomes: constructing the search engine fails
when no index exists (lines 61-65); the best similarity of each modality is
the head result's score, defaulting to 0 for an empty result list
(lines 70-71); both-empty raises the no-matches error (lines 74-75); the
higher-scoring modality's top result is selected by `speech_sim >
caption_sim` (line 78, indexing `[0]` into the selected list); the clip is
extracted for that segment's range into the shared media directory under the
generated name and its filename returned (lines 80-87). -/
def get_video_clip_from_user_query (index_exists : Bool)
    (speech_clips caption_clips : List ClipInfo) (generated_name : String) :
    Except ToolError VideoClip :=
  if index_exists = false then Except.error ToolError.indexNotFound
  else if speech_clips = [] ∧ caption_clips = [] then Except.error ToolError.noMatches
  else
    if (match caption_clips with | [] => (0 : Rat) | c :: _ => c.similarity) <
        (match speech_clips with | [] => (0 : Rat) | c :: _ => c.similarity) then
      match speech_clips with
      | [] => Except.error ToolError.indexError
      | info :: _ =>
        Except.ok (extract_video_clip info.start_time info.end_time
          ("./shared_media/" ++ generated_name ++ ".mp4"))
    else
      match caption_clips with
      | [] => Except.error ToolError.indexError
      | info :: _ =>
        Except.ok (extract_video_clip info.start_time info.end_time
          ("./shared_media/" ++ generated_name ++ ".mp4"))

/-- C8: on an indexed video, when both searches return results, the tool
selects the top result of the modality with the strictly higher best
similarity score, extracts a clip for exactly that segment's time range, and
returns its generated filename. -/
theorem clip_query_selects_higher_modality (s c : ClipInfo)
    (ss cs : List ClipInfo) (generated_name : String) :
    (c.similarity < s.similarity →
      get_video_clip_from_user_query true (s :: ss) (c :: cs) generated_name =
        Except.ok ⟨"./shared_media/" ++ generated_name ++ ".mp4",
          s.start_time, s.end_time⟩) ∧
    (s.similarity < c.similarity →
      get_video_clip_from_user_query true (s :: ss) (c :: cs) generated_name =
        Except.ok ⟨"./shared_media/" ++ generated_name ++ ".mp4",
          c.start_time, c.end_time⟩) := by
  constructor
  · intro h
    simp [get_video_clip_from_user_query, extract_video_clip, h]
  · intro h
    simp [get_video_clip_from_user_query, extract_video_clip, not_lt.mpr (le_of_lt h)]

/-- A search result with similarity 2 over segment 10-20. -/
def demoClipA : ClipInfo := ⟨2, 10, 20⟩

/-- A search result with similarity 1 over segment 30-40. -/
def demoClipB : ClipInfo := ⟨1, 30, 40⟩

/-- A search result with similarity 3 over segment 50-60. -/
def demoClipC : ClipInfo := ⟨3, 50, 60⟩

/-- Witness for C8 in both directions: the speech segment wins when its score
is higher, and the caption segment wins when its score is higher. -/
theorem clip_query_selects_higher_modality_witness :
    get_video_clip_from_user_query true [demoClipA] [demoClipB] "clip" =
      Except.ok ⟨"./shared_media/" ++ "clip" ++ ".mp4",
        demoClipA.start_time, demoClipA.end_time⟩ ∧
    get_video_clip_from_user_query true [demoClipB] [demoClipC] "clip" =
      Except.ok ⟨"./shared_media/" ++ "clip" ++ ".mp4",
        demoClipC.start_time, demoClipC.end_time⟩ :=
  ⟨(clip_query_selects_higher_modality demoClipA demoClipB [] [] "clip").1 (by decide),
    (clip_query_selects_higher_modality demoClipB demoClipC [] [] "clip").2 (by decide)⟩

end ElixSpec
